import Mathlib

/-!
Shallow embedding of `src/luci-lte.py` and `src/luci_parser.py`
(artemd93/Luci-interface): a small JSON-RPC client that authenticates
against a router, sets a network interface up or down, commits, and reads
the state back.

Network effects are modelled by explicit state passing: every function that
issues HTTP POSTs takes and returns an `St` record holding the ordered list
of issued requests and the ordered list of log lines.  The transport
(`requests.post`) is a parameter `net : Net` mapping the index of the call
and the request to either a parsed response or a raised transport failure.
-/

namespace LuciLte

/-- Parsed JSON values, as returned by `res.json()` and built by
`json.dumps` of the Python dict literals in the source.  Python `None`
is `Json.null`. -/
inductive Json where
  | null
  | bool (b : Bool)
  | num (n : Int)
  | str (s : String)
  | arr (elems : List Json)
  | obj (fields : List (String × Json))

/-- Python `x is None` on a parsed JSON value. -/
def Json.isNull : Json → Bool
  | .null => true
  | _ => false

@[simp] theorem Json.isNull_null : Json.isNull .null = true := rfl

@[simp] theorem Json.isNull_str (s : String) : Json.isNull (.str s) = false := rfl

/-- Dictionary lookup on the fields of a JSON object. -/
def lookupField : List (String × Json) → String → Option Json
  | [], _ => none
  | (k, v) :: fs, key => if k = key then some v else lookupField fs key

/-- `body[key]` on a parsed JSON body: `some` value, or `none` when the key
is absent (Python would raise `KeyError`). -/
def jsonGet : Json → String → Option Json
  | .obj fs, key => lookupField fs key
  | _, _ => none

mutual

/-- Python `repr` of a parsed JSON value (string escaping elided: the
source only ever interpolates strings and integers into messages). -/
def pyRepr : Json → String
  | .null => "None"
  | .bool true => "True"
  | .bool false => "False"
  | .num n => toString n
  | .str s => "\x27" ++ s ++ "\x27"
  | .arr elems => "[" ++ pyReprElems elems ++ "]"
  | .obj fields => "\x7b" ++ pyReprFields fields ++ "\x7d"

def pyReprElems : List Json → String
  | [] => ""
  | [x] => pyRepr x
  | x :: xs => pyRepr x ++ ", " ++ pyReprElems xs

def pyReprFields : List (String × Json) → String
  | [] => ""
  | [(k, v)] => "\x27" ++ k ++ "\x27: " ++ pyRepr v
  | (k, v) :: fs => "\x27" ++ k ++ "\x27: " ++ pyRepr v ++ ", " ++ pyReprFields fs

end

/-- Python `str` of a parsed JSON value, as used by f-string interpolation
(`f"Got RCP error \x7berror\x7d"` etc.). -/
def pyStr : Json → String
  | .str s => s
  | j => pyRepr j

/-- One HTTP POST as issued by `requests.post(url, params=..., data=payload,
timeout=...)`: the body is recorded in parsed form (the source always posts
`json.dumps` of a dict literal). -/
structure HttpRequest where
  url : String
  queryParams : List (String × Json)
  body : Json
  timeout : Option Nat

/-- A transport-level response: `res.ok`, `res.status_code`, and the parsed
JSON body `res.json()`. -/
structure HttpResponse where
  ok : Bool
  status_code : Nat
  body : Json

/-- Exceptions.  `Modelled from the spec:` the class `LuciException` is
imported from `luci_exception`, a module of this repository that is not
under `src/`; per the spec taxonomy it is an ordinary exception carrying a
one-line human-readable message, and `print(e)` renders that message
(`Exc.luci`).  `connectTimeout` / `readTimeout` are
`requests.exceptions.ConnectTimeout` / `ReadTimeout`; `keyError` is a
Python `KeyError` from indexing a missing body field. -/
inductive Exc where
  | luci (msg : String)
  | connectTimeout
  | readTimeout
  | keyError (key : String)

/-- The transport: given the index of the call within the run (0-based) and
the request, either a response or a raised transport failure. -/
def Net : Type := Nat → HttpRequest → Except Exc HttpResponse

inductive LogLevel where
  | info
  | warn
  | critical
deriving DecidableEq

/-- One line emitted through the module logger. -/
structure LogEntry where
  level : LogLevel
  msg : String
deriving DecidableEq

/-- Observable state threaded through the run: the ordered trace of issued
HTTP requests and the ordered log lines. -/
structure St where
  trace : List HttpRequest
  logs : List LogEntry

/-- `requests.post`: records the request in the trace (also when the
transport raises) and yields the transport's answer. -/
def St.post (s : St) (net : Net) (req : HttpRequest) :
    Except Exc HttpResponse × St :=
  (net s.trace.length req, { s with trace := s.trace ++ [req] })

def St.log (s : St) (lvl : LogLevel) (m : String) : St :=
  { s with logs := s.logs ++ [⟨lvl, m⟩] }

/-- `check_rpc_error` (`luci-lte.py:20-24`): a non-`None` `error` field is
logged critical and raised as `LuciException`. -/
def check_rpc_error (s : St) (error : Json) : Except Exc Unit × St :=
  if error.isNull then (.ok (), s)
  else
    let msg := "Got RCP error " ++ pyStr error
    (.error (.luci msg), s.log .critical msg)

/-- The login request body and POST issued by `get_new_token`. -/
def authRequest (rpc_url username password : String) : HttpRequest :=
  { url := rpc_url ++ "/auth"
    queryParams := []
    body := .obj [("id", .num 1), ("method", .str "login"),
      ("params", .arr [.str username, .str password])]
    timeout := some 4 }

/-- `get_new_token` (`luci-lte.py:27-54`): POST `login` to `rpc_url/auth`
with a 4-unit timeout; raise on non-OK status, on a non-null `error`
field, and on a null `result`; otherwise return the token. -/
def get_new_token (s : St) (net : Net) (rpc_url username password : String) :
    Except Exc Json × St :=
  match s.post net (authRequest rpc_url username password) with
  | (.error e, s) => (.error e, s)
  | (.ok res, s) =>
    if !res.ok then
      let msg := "Got unexpected response code " ++ toString res.status_code
      (.error (.luci msg), s.log .critical msg)
    else
      match jsonGet res.body "error" with
      | none => (.error (.keyError "error"), s)
      | some err =>
        match check_rpc_error s err with
        | (.error e, s) => (.error e, s)
        | (.ok _, s) =>
          match jsonGet res.body "result" with
          | none => (.error (.keyError "result"), s)
          | some token =>
            if token.isNull then
              let msg := "Authentication failed"
              (.error (.luci msg), s.log .critical msg)
            else
              (.ok token, s)

/-- The `set` POST issued by `set_iface`. -/
def setRequest (rpc_url if_name if_status : String) (token : Json) :
    HttpRequest :=
  { url := rpc_url ++ "/uci"
    queryParams := [("auth", token)]
    body := .obj [("method", .str "set"),
      ("params", .arr [.str "network", .str if_name, .str "auto", .str if_status])]
    timeout := none }

/-- The `commit` POST issued by `set_iface`. -/
def commitRequest (rpc_url : String) (token : Json) : HttpRequest :=
  { url := rpc_url ++ "/uci"
    queryParams := [("auth", token)]
    body := .obj [("method", .str "commit"), ("params", .arr [.str "network"])]
    timeout := none }

/-- `set_iface` (`luci-lte.py:57-98`): validate the desired state before
any network work, then POST `set` and, only if it fully succeeds, POST
`commit`; each POST is checked for HTTP status and RPC `error` field. -/
def set_iface (s : St) (net : Net) (rpc_url if_name if_status : String)
    (token : Json) : Except Exc Unit × St :=
  if if_status ∉ (["0", "1"] : List String) then
    let msg := "Interface status should be 0 or 1, got " ++ if_status ++ ". Aborting..."
    (.error (.luci msg), s.log .critical msg)
  else
    match s.post net (setRequest rpc_url if_name if_status token) with
    | (.error e, s) => (.error e, s)
    | (.ok res, s) =>
      if !res.ok then
        let msg := "Failed to set interface " ++ if_name ++ " to " ++ if_status ++
          " with the error code " ++ toString res.status_code
        (.error (.luci msg), s.log .critical msg)
      else
        match jsonGet res.body "error" with
        | none => (.error (.keyError "error"), s)
        | some err =>
          match check_rpc_error s err with
          | (.error e, s) => (.error e, s)
          | (.ok _, s) =>
            match s.post net (commitRequest rpc_url token) with
            | (.error e, s) => (.error e, s)
            | (.ok res, s) =>
              if !res.ok then
                let msg := "Failed to commit changes with the error code " ++
                  toString res.status_code
                (.error (.luci msg), s.log .critical msg)
              else
                match jsonGet res.body "error" with
                | none => (.error (.keyError "error"), s)
                | some err => check_rpc_error s err

/-- The `get_all` POST issued by `get_iface`. -/
def getAllRequest (rpc_url if_name : String) (token : Json) : HttpRequest :=
  { url := rpc_url ++ "/uci"
    queryParams := [("auth", token)]
    body := .obj [("method", .str "get_all"),
      ("params", .arr [.str "network", .str if_name])]
    timeout := none }

/-- `get_iface` (`luci-lte.py:101-122`): POST `get_all`; a non-OK status
only logs a warning (no abort), then the `error` field is checked and the
`result` field returned. -/
def get_iface (s : St) (net : Net) (rpc_url if_name : String) (token : Json) :
    Except Exc Json × St :=
  match s.post net (getAllRequest rpc_url if_name token) with
  | (.error e, s) => (.error e, s)
  | (.ok res, s) =>
    let s := if !res.ok then
        s.log .warn ("Failed to get interface status for " ++ if_name)
      else s
    match jsonGet res.body "error" with
    | none => (.error (.keyError "error"), s)
    | some err =>
      match check_rpc_error s err with
      | (.error e, s) => (.error e, s)
      | (.ok _, s) =>
        match jsonGet res.body "result" with
        | none => (.error (.keyError "result"), s)
        | some r => (.ok r, s)

/-- The argparse-generated usage/help text.  Its exact wording is produced
by the standard library and is immaterial here; only the stream it is
written to matters, so one representative string stands in for it. -/
def usageHelpText : String :=
  "usage: luci-lte.py [-h] if_name \x7b1,0\x7d"

/-- Outcome of argument parsing: parsed positionals, or the streams written
and the exit status taken by `LuciParser.error`. -/
inductive ParseResult where
  | ok (if_name if_state : String)
  | err (stderrLines stdoutLines : List String) (exitCode : Nat)

/-- `LuciParser.error` (`luci_parser.py:6-9`): write `error: <message>` to
stderr, print the help text — argparse `print_help` writes to stdout by
default — and exit with status 5. -/
def LuciParser.error (message : String) : ParseResult :=
  .err ["error: " ++ message] [usageHelpText] 5

/-- `parse_args` (`luci-lte.py:125-132`), with stdlib argparse dispatch:
two positionals, `if_state` restricted to choices `("1", "0")`; any arity
mismatch or invalid choice goes through `LuciParser.error`.  (The `-h`
flag is elided: no claim concerns it.) -/
def parse_args (argv : List String) : ParseResult :=
  match argv with
  | [n, st] =>
    if st = "1" ∨ st = "0" then .ok n st
    else LuciParser.error ("argument if_state: invalid choice: \x27" ++ st ++ "\x27")
  | [] => LuciParser.error "the following arguments are required: if_name, if_state"
  | [_] => LuciParser.error "the following arguments are required: if_state"
  | _ => LuciParser.error "unrecognized arguments"

/-- The process environment as seen through `os.environ.get` after
`load_dotenv`: each variable is absent or a string. -/
structure Env where
  luci_user : Option String
  luci_pass : Option String
  luci_rpc_root : Option String

/-- Python truthiness of `os.environ.get(...)`: `None` and the empty
string are falsy. -/
def truthy : Option String → Bool
  | none => false
  | some s => !(decide (s = ""))

/-- `load_auth_data` (`luci-lte.py:135-147`): read the three variables;
`if not all([username, password, rpc_url])` raises, so an absent variable
and an empty-string variable fail alike. -/
def load_auth_data (s : St) (env : Env) :
    Except Exc (String × String × String) × St :=
  if !(truthy env.luci_user && truthy env.luci_pass && truthy env.luci_rpc_root) then
    let msg := "Failed to parse ENV data. Please specify LuCI username, password and host"
    (.error (.luci msg), s.log .critical msg)
  else
    (.ok (env.luci_user.getD "", env.luci_pass.getD "", env.luci_rpc_root.getD ""), s)

/-- How `main` ends: fall off the end (process exit 0), an explicit
`exit(n)` / `sys.exit(n)`, or an exception propagating out of `main`. -/
inductive Outcome where
  | finished
  | exited (code : Nat)
  | raised (e : Exc)

/-- Everything observable about one run. -/
structure RunResult where
  outcome : Outcome
  trace : List HttpRequest
  logs : List LogEntry
  stdoutLines : List String
  stderrLines : List String

def RunResult.ofSt (o : Outcome) (s : St) : RunResult :=
  { outcome := o, trace := s.trace, logs := s.logs
    stdoutLines := [], stderrLines := [] }

/-- `main` (`luci-lte.py:150-169`): parse args, load env, authenticate,
set, pause, read back; a null read-back result reports absence and exits
2, otherwise the raw state is logged and `main` returns.  (`time.sleep(1)`
has no observable effect in this model.) -/
def main (argv : List String) (env : Env) (net : Net) : RunResult :=
  match parse_args argv with
  | .err errLs outLs code =>
    { outcome := .exited code, trace := [], logs := []
      stdoutLines := outLs, stderrLines := errLs }
  | .ok if_name if_state =>
    match load_auth_data { trace := [], logs := [] } env with
    | (.error e, s) => RunResult.ofSt (.raised e) s
    | (.ok (username, password, rpc_url), s) =>
      let s := s.log .info "Authenticating..."
      match get_new_token s net rpc_url username password with
      | (.error e, s) => RunResult.ofSt (.raised e) s
      | (.ok token, s) =>
        let s := s.log .info ("Setting interface " ++ if_name ++ " to " ++ if_state)
        match set_iface s net rpc_url if_name if_state token with
        | (.error e, s) => RunResult.ofSt (.raised e) s
        | (.ok _, s) =>
          let s := s.log .info ("Verifying current state for " ++ if_name)
          match get_iface s net rpc_url if_name token with
          | (.error e, s) => RunResult.ofSt (.raised e) s
          | (.ok iface_data, s) =>
            if iface_data.isNull then
              let s := s.log .info ("Interface " ++ if_name ++
                " doesn\x27t exist. Please create it before running this program")
              RunResult.ofSt (.exited 2) s
            else
              let s := s.log .info ("Current interface state: " ++ pyStr iface_data)
              RunResult.ofSt .finished s

/-- The `__main__` block (`luci-lte.py:172-180`): `LuciException`,
`ConnectTimeout` and `ReadTimeout` are caught and rendered as one printed
line; the handler then falls off the end of the script, so the process
exits with status 0.  Any other exception propagates. -/
def top_level (argv : List String) (env : Env) (net : Net) : RunResult :=
  let r := main argv env net
  match r.outcome with
  | .raised (.luci msg) =>
    { r with outcome := .exited 0, stdoutLines := r.stdoutLines ++ [msg] }
  | .raised .connectTimeout =>
    { r with outcome := .exited 0, stdoutLines := r.stdoutLines ++
        ["Connection timed out. Check if the remote host is alive"] }
  | .raised .readTimeout =>
    { r with outcome := .exited 0, stdoutLines := r.stdoutLines ++
        ["Reading from a connection timed out. Remote host is too slow?"] }
  | _ => r

/-- The exit status of the interpreter for a given `main` outcome: falling
off the end is 0, `exit(n)` is `n`, an uncaught exception makes Python
exit 1 with a traceback. -/
def processExitCode : Outcome → Nat
  | .finished => 0
  | .exited n => n
  | .raised _ => 1

/-- An HTTP 200 response whose body has the given `result` and a null
`error` — the stub responses used by concrete runs below. -/
def okRes (r : Json) : HttpResponse :=
  { ok := true, status_code := 200
    body := .obj [("result", r), ("error", .null)] }

/-- C6: with a transport answering HTTP 200 and body
`{"result": "tok123", "error": null}`, `get_new_token` returns `"tok123"`,
and the single request it issues is a POST to `rpc_url ++ "/auth"` with
body `{"id": 1, "method": "login", "params": [username, password]}`, no
query parameters, and a 4-unit timeout. -/
theorem C6_login_success_token_and_request (s : St) (rpc_url username password : String) :
    get_new_token s (fun _ _ => .ok (okRes (.str "tok123"))) rpc_url username password =
      (.ok (.str "tok123"),
        { s with trace := s.trace ++ [authRequest rpc_url username password] }) ∧
    authRequest rpc_url username password =
      { url := rpc_url ++ "/auth"
        queryParams := []
        body := .obj [("id", .num 1), ("method", .str "login"),
          ("params", .arr [.str username, .str password])]
        timeout := some 4 } :=
  ⟨rfl, rfl⟩

/-- C7: with a transport answering HTTP 200 and body
`{"result": null, "error": null}`, `get_new_token` raises the
authentication failure instead of returning. -/
theorem C7_login_null_result_raises (s : St) (rpc_url username password : String) :
    (get_new_token s (fun _ _ => .ok (okRes .null)) rpc_url username password).1 =
      .error (.luci "Authentication failed") :=
  rfl

/-- A run against a transport whose read-back `get_all` result is null
(the login call still yields a token). -/
def runNotFound : RunResult :=
  top_level ["lte", "1"] ⟨some "u", some "p", some "http://r"⟩
    (fun k _ => .ok (okRes (if k = 0 then .str "tok" else .null)))

/-- A run against a transport whose read-back `get_all` result is the
string `"up"`. -/
def runFound : RunResult :=
  top_level ["lte", "1"] ⟨some "u", some "p", some "http://r"⟩
    (fun k _ => .ok (okRes (if k = 0 then .str "tok" else .str "up")))

/-- C9: when the read-back `get_all` result is null the run reports that
the interface does not exist and exits with status 2; when it is non-null
the raw state is reported and the run ends on the success path (exit 0). -/
theorem C9_null_readback_exit2_nonnull_success :
    (processExitCode runNotFound.outcome = 2 ∧
      runNotFound.logs.getLast? = some ⟨.info,
        "Interface lte doesn\x27t exist. Please create it before running this program"⟩) ∧
    (runFound.outcome = .finished ∧ processExitCode runFound.outcome = 0 ∧
      runFound.logs.getLast? = some ⟨.info, "Current interface state: up"⟩) :=
  ⟨⟨rfl, rfl⟩, ⟨rfl, rfl, rfl⟩⟩

/-- A run whose environment is missing every variable: `load_auth_data`
raises `LuciException` and the top level catches it. -/
def runNoEnv : RunResult :=
  top_level ["lte", "1"] ⟨none, none, none⟩ (fun _ _ => .error .connectTimeout)

/-- A run whose transport raises `ConnectTimeout` on every call. -/
def runConnectTimeout : RunResult :=
  top_level ["lte", "1"] ⟨some "u", some "p", some "http://r"⟩
    (fun _ _ => .error .connectTimeout)

/-- C1 (code bug): the top-level handler prints the one-line message for a
caught `LuciException` or transport timeout, but then falls off the end of
the script, so the process exits with status 0 — not the non-zero status
the claim requires.  Shown on two concrete runs: missing environment
(LuciException) and a connect timeout. -/
theorem C1_caught_failure_prints_but_exits_zero :
    (runNoEnv.stdoutLines =
        ["Failed to parse ENV data. Please specify LuCI username, password and host"] ∧
      processExitCode runNoEnv.outcome = 0) ∧
    (runConnectTimeout.stdoutLines =
        ["Connection timed out. Check if the remote host is alive"] ∧
      processExitCode runConnectTimeout.outcome = 0) :=
  ⟨⟨rfl, rfl⟩, ⟨rfl, rfl⟩⟩

/-- C2: for every desired state outside `{"0", "1"}` and all other
arguments, `set_iface` raises the validation `LuciException` and the
request trace is unchanged — zero HTTP POSTs are issued. -/
theorem C2_invalid_state_no_network (s : St) (net : Net)
    (rpc_url if_name if_status : String) (token : Json)
    (h : if_status ∉ (["0", "1"] : List String)) :
    (set_iface s net rpc_url if_name if_status token).1 =
      .error (.luci ("Interface status should be 0 or 1, got " ++ if_status ++
        ". Aborting...")) ∧
    ((set_iface s net rpc_url if_name if_status token).2).trace = s.trace := by
  unfold set_iface
  rw [if_pos h]
  exact ⟨rfl, rfl⟩

/-- Witness for C2 at the concrete state `"2"`. -/
theorem C2_invalid_state_no_network_witness :
    ("2" : String) ∉ (["0", "1"] : List String) ∧
    (set_iface ⟨[], []⟩ (fun _ _ => .error .connectTimeout)
        "http://r" "lte" "2" .null).1 =
      .error (.luci "Interface status should be 0 or 1, got 2. Aborting...") ∧
    ((set_iface ⟨[], []⟩ (fun _ _ => .error .connectTimeout)
        "http://r" "lte" "2" .null).2).trace = [] := by
  have h : ("2" : String) ∉ (["0", "1"] : List String) := by decide
  exact ⟨h,
    (C2_invalid_state_no_network ⟨[], []⟩ (fun _ _ => .error .connectTimeout)
      "http://r" "lte" "2" .null h).1,
    (C2_invalid_state_no_network ⟨[], []⟩ (fun _ _ => .error .connectTimeout)
      "http://r" "lte" "2" .null h).2⟩

/-- C3: whenever the `set` sub-call of `set_iface` fails — non-OK HTTP
status, or an `error` field that is not null — the function raises and the
trace ends after the `set` request: the `commit` POST is never issued. -/
theorem C3_set_failure_no_commit (s : St) (net : Net)
    (rpc_url if_name if_status : String) (token : Json) (res : HttpResponse)
    (hval : if_status ∈ (["0", "1"] : List String))
    (hnet : net s.trace.length (setRequest rpc_url if_name if_status token) = .ok res)
    (hfail : res.ok = false ∨
      ∀ err, jsonGet res.body "error" = some err → err.isNull = false) :
    (∃ e, (set_iface s net rpc_url if_name if_status token).1 = .error e) ∧
    ((set_iface s net rpc_url if_name if_status token).2).trace =
      s.trace ++ [setRequest rpc_url if_name if_status token] := by
  unfold set_iface
  rw [if_neg (not_not_intro hval)]
  simp only [St.post]
  rw [hnet]
  cases hok : res.ok with
  | false =>
    simp [hok, St.log]
  | true =>
    rcases hfail with hfalse | herr
    · rw [hok] at hfalse
      exact absurd hfalse (by decide)
    · cases hres : jsonGet res.body "error" with
      | none => simp [hok, hres, St.log]
      | some err =>
        have hnn := herr err hres
        simp [hok, hres, check_rpc_error, hnn, St.log]

/-- Witness for C3 at a concrete transport answering the `set` POST with
HTTP 500. -/
theorem C3_set_failure_no_commit_witness :
    ("1" : String) ∈ (["0", "1"] : List String) ∧
    (∃ e, (set_iface ⟨[], []⟩
        (fun _ _ => .ok ⟨false, 500, .obj [("result", .null), ("error", .null)]⟩)
        "http://r" "lte" "1" .null).1 = .error e) ∧
    ((set_iface ⟨[], []⟩
        (fun _ _ => .ok ⟨false, 500, .obj [("result", .null), ("error", .null)]⟩)
        "http://r" "lte" "1" .null).2).trace =
      [setRequest "http://r" "lte" "1" .null] := by
  have h := C3_set_failure_no_commit ⟨[], []⟩
    (fun _ _ => .ok ⟨false, 500, .obj [("result", .null), ("error", .null)]⟩)
    "http://r" "lte" "1" .null ⟨false, 500, .obj [("result", .null), ("error", .null)]⟩
    (by decide) rfl (Or.inl rfl)
  exact ⟨by decide, h.1, h.2⟩

/-- C4: a non-null `error` field raises the `LuciException` carrying that
error, in `check_rpc_error` itself and on each logical operation — login,
set, commit, get_all — even when the HTTP status is OK (200). -/
theorem C4_nonnull_error_raises_everywhere (e : Json) (he : e.isNull = false) :
    (∀ s : St, (check_rpc_error s e).1 =
      .error (.luci ("Got RCP error " ++ pyStr e))) ∧
    (∀ s : St, ∀ r : Json, ∀ rpc_url username password : String,
      (get_new_token s (fun _ _ => .ok ⟨true, 200, .obj [("result", r), ("error", e)]⟩)
        rpc_url username password).1 =
        .error (.luci ("Got RCP error " ++ pyStr e))) ∧
    (∀ s : St, ∀ r : Json, ∀ rpc_url if_name : String, ∀ token : Json,
      (set_iface s (fun _ _ => .ok ⟨true, 200, .obj [("result", r), ("error", e)]⟩)
        rpc_url if_name "1" token).1 =
        .error (.luci ("Got RCP error " ++ pyStr e))) ∧
    (∀ r : Json, ∀ rpc_url if_name : String, ∀ token : Json,
      (set_iface ⟨[], []⟩
        (fun k _ => if k = 0 then .ok (okRes .null)
          else .ok ⟨true, 200, .obj [("result", r), ("error", e)]⟩)
        rpc_url if_name "1" token).1 =
        .error (.luci ("Got RCP error " ++ pyStr e))) ∧
    (∀ s : St, ∀ r : Json, ∀ rpc_url if_name : String, ∀ token : Json,
      (get_iface s (fun _ _ => .ok ⟨true, 200, .obj [("result", r), ("error", e)]⟩)
        rpc_url if_name token).1 =
        .error (.luci ("Got RCP error " ++ pyStr e))) := by
  refine ⟨fun s => ?_, fun s r u v w => ?_, fun s r u n t => ?_,
    fun r u n t => ?_, fun s r u n t => ?_⟩
  · simp [check_rpc_error, he]
  · simp [get_new_token, St.post, authRequest, jsonGet, lookupField,
      check_rpc_error, he]
  · simp [set_iface, St.post, setRequest, jsonGet, lookupField,
      check_rpc_error, he]
  · simp [set_iface, St.post, setRequest, commitRequest, okRes, jsonGet,
      lookupField, check_rpc_error, he]
  · simp [get_iface, St.post, getAllRequest, jsonGet, lookupField,
      check_rpc_error, he]

/-- Witness for C4 at the concrete error value `"some failure"`. -/
theorem C4_nonnull_error_raises_everywhere_witness :
    (Json.str "some failure").isNull = false ∧
    (check_rpc_error ⟨[], []⟩ (.str "some failure")).1 =
      .error (.luci "Got RCP error some failure") :=
  ⟨rfl, (C4_nonnull_error_raises_everywhere (.str "some failure") rfl).1 ⟨[], []⟩⟩

/-- C5: in `get_iface` a non-OK HTTP status does not abort the call: a
warning is logged, then the `error` field is still inspected (raising,
with a critical log line, when non-null) and otherwise the `result` field
of the body is returned. -/
theorem C5_get_iface_non_ok_warns_and_continues (s : St) (net : Net)
    (rpc_url if_name : String) (token : Json) (res : HttpResponse) (err : Json)
    (hnet : net s.trace.length (getAllRequest rpc_url if_name token) = .ok res)
    (hok : res.ok = false)
    (herr : jsonGet res.body "error" = some err) :
    ((get_iface s net rpc_url if_name token).2).trace =
      s.trace ++ [getAllRequest rpc_url if_name token] ∧
    (err.isNull = false →
      (get_iface s net rpc_url if_name token).1 =
        .error (.luci ("Got RCP error " ++ pyStr err)) ∧
      ((get_iface s net rpc_url if_name token).2).logs =
        s.logs ++ [⟨.warn, "Failed to get interface status for " ++ if_name⟩,
          ⟨.critical, "Got RCP error " ++ pyStr err⟩]) ∧
    (err.isNull = true →
      ((get_iface s net rpc_url if_name token).2).logs =
        s.logs ++ [⟨.warn, "Failed to get interface status for " ++ if_name⟩] ∧
      (get_iface s net rpc_url if_name token).1 =
        (match jsonGet res.body "result" with
          | some r => .ok r
          | none => .error (.keyError "result"))) := by
  unfold get_iface
  simp only [St.post]
  rw [hnet]
  refine ⟨?_, fun hnn => ?_, fun hnull => ?_⟩
  · simp only [hok]
    cases hres : jsonGet res.body "error" with
    | none => rfl
    | some e2 =>
      unfold check_rpc_error
      cases hb : e2.isNull with
      | false => simp [hb, St.log]
      | true => cases h2 : jsonGet res.body "result" <;> simp [hb, h2, St.log]
  · simp [hok, herr, check_rpc_error, hnn, St.log]
  · cases hres2 : jsonGet res.body "result" with
    | none => simp [hok, herr, check_rpc_error, hnull, hres2, St.log]
    | some r => simp [hok, herr, check_rpc_error, hnull, hres2, St.log]

/-- Witness for C5 at a concrete HTTP 500 response with a null `error` and
result `"down"`. -/
theorem C5_get_iface_non_ok_warns_and_continues_witness :
    ((fun _ _ => .ok ⟨false, 500, .obj [("result", .str "down"), ("error", .null)]⟩ : Net)
        0 (getAllRequest "http://r" "lte" .null) =
      .ok ⟨false, 500, .obj [("result", .str "down"), ("error", .null)]⟩) ∧
    ((get_iface ⟨[], []⟩
        (fun _ _ => .ok ⟨false, 500, .obj [("result", .str "down"), ("error", .null)]⟩)
        "http://r" "lte" .null).2).logs =
      [⟨.warn, "Failed to get interface status for lte"⟩] ∧
    (get_iface ⟨[], []⟩
        (fun _ _ => .ok ⟨false, 500, .obj [("result", .str "down"), ("error", .null)]⟩)
        "http://r" "lte" .null).1 = .ok (.str "down") := by
  have h := C5_get_iface_non_ok_warns_and_continues ⟨[], []⟩
    (fun _ _ => .ok ⟨false, 500, .obj [("result", .str "down"), ("error", .null)]⟩)
    "http://r" "lte" .null
    ⟨false, 500, .obj [("result", .str "down"), ("error", .null)]⟩ .null
    rfl rfl rfl
  exact ⟨rfl, (h.2.2 rfl).1, (h.2.2 rfl).2⟩

/-- A run with a malformed `if_state` argument. -/
def runBadChoice : RunResult :=
  main ["lte", "2"] ⟨some "u", some "p", some "http://r"⟩
    (fun _ _ => .error .connectTimeout)

/-- C8 counterexample: on the malformed argument set `["lte", "2"]` the
program does exit with status 5 before any network activity, but the
usage/help message goes to standard output (argparse `print_help`), not to
standard error — standard error carries only the one error line. -/
theorem C8_counterexample_help_not_on_stderr :
    runBadChoice.outcome = .exited 5 ∧
    runBadChoice.trace = [] ∧
    runBadChoice.stdoutLines = [usageHelpText] ∧
    runBadChoice.stderrLines =
      ["error: argument if_state: invalid choice: \x272\x27"] ∧
    usageHelpText ∉ runBadChoice.stderrLines := by
  refine ⟨rfl, rfl, rfl, rfl, ?_⟩
  decide

/-- A malformed command-line argument set: wrong arity, or `if_state`
outside the choices `{"1", "0"}`. -/
def malformedArgs : List String → Prop
  | [_, st] => st ≠ "1" ∧ st ≠ "0"
  | _ => True

/-- C8 amended: for every malformed argument set the program writes an
error line to standard error and the usage/help message to standard
output, and exits with status 5 before any network activity. -/
theorem C8_amended_malformed_args_exit5 (argv : List String) (env : Env)
    (net : Net) (h : malformedArgs argv) :
    (main argv env net).outcome = .exited 5 ∧
    (main argv env net).trace = [] ∧
    (main argv env net).stdoutLines = [usageHelpText] ∧
    ∃ m, (main argv env net).stderrLines = ["error: " ++ m] := by
  cases argv with
  | nil => exact ⟨rfl, rfl, rfl, _, rfl⟩
  | cons a t =>
    cases t with
    | nil => exact ⟨rfl, rfl, rfl, _, rfl⟩
    | cons b t2 =>
      cases t2 with
      | nil =>
        obtain ⟨h1, h0⟩ := h
        have hp : parse_args [a, b] =
            LuciParser.error ("argument if_state: invalid choice: \x27" ++ b ++ "\x27") := by
          simp [parse_args, h1, h0]
        unfold main
        rw [hp]
        exact ⟨rfl, rfl, rfl, _, rfl⟩
      | cons c t3 => exact ⟨rfl, rfl, rfl, _, rfl⟩

/-- Witness for the amended C8 at the concrete argument set
`["lte", "2"]`. -/
theorem C8_amended_malformed_args_exit5_witness :
    malformedArgs ["lte", "2"] ∧
    (main ["lte", "2"] ⟨none, none, none⟩ (fun _ _ => .error .readTimeout)).outcome =
      .exited 5 ∧
    (main ["lte", "2"] ⟨none, none, none⟩ (fun _ _ => .error .readTimeout)).trace = [] := by
  have h : malformedArgs ["lte", "2"] := ⟨by decide, by decide⟩
  have h2 := C8_amended_malformed_args_exit5 ["lte", "2"] ⟨none, none, none⟩
    (fun _ _ => .error .readTimeout) h
  exact ⟨h, h2.1, h2.2.1⟩

/-- C10: `load_auth_data` treats an empty-string environment variable like
an absent one — if any of the three variables is unset or empty it raises
the fatal configuration `LuciException` — and any triple it returns
consists of three non-empty strings. -/
theorem C10_empty_env_like_absent (s : St) (env : Env) :
    ((env.luci_user = none ∨ env.luci_user = some "" ∨
      env.luci_pass = none ∨ env.luci_pass = some "" ∨
      env.luci_rpc_root = none ∨ env.luci_rpc_root = some "") →
      (load_auth_data s env).1 = .error (.luci
        "Failed to parse ENV data. Please specify LuCI username, password and host")) ∧
    (∀ u p r, (load_auth_data s env).1 = .ok (u, p, r) →
      u ≠ "" ∧ p ≠ "" ∧ r ≠ "") := by
  constructor
  · intro h
    have hc : (truthy env.luci_user && truthy env.luci_pass &&
        truthy env.luci_rpc_root) = false := by
      rcases h with h | h | h | h | h | h <;> rw [h] <;> simp [truthy]
    simp [load_auth_data, hc]
  · intro u p r h
    unfold load_auth_data at h
    cases hc : (truthy env.luci_user && truthy env.luci_pass &&
        truthy env.luci_rpc_root) with
    | false => rw [hc] at h; simp at h
    | true =>
      rw [hc] at h
      simp only [Bool.not_true, Bool.false_eq_true, if_false] at h
      rw [Bool.and_eq_true, Bool.and_eq_true] at hc
      obtain ⟨⟨hu, hp⟩, hr⟩ := hc
      have hne : ∀ o : Option String, truthy o = true → o.getD "" ≠ "" := by
        intro o ho
        cases o with
        | none => simp [truthy] at ho
        | some str =>
          simp only [Option.getD_some]
          intro hstr
          rw [hstr] at ho
          simp [truthy] at ho
      obtain ⟨e1, e2, e3⟩ : env.luci_user.getD "" = u ∧
          env.luci_pass.getD "" = p ∧ env.luci_rpc_root.getD "" = r := by
        have := Except.ok.inj h
        exact ⟨congrArg Prod.fst this,
          congrArg Prod.fst (congrArg Prod.snd this),
          congrArg Prod.snd (congrArg Prod.snd this)⟩
      exact ⟨e1 ▸ hne _ hu, e2 ▸ hne _ hp, e3 ▸ hne _ hr⟩

/-- Witness for C10: with `LuCI_USER` set to the empty string (the other
two set and non-empty), `load_auth_data` raises the configuration
failure. -/
theorem C10_empty_env_like_absent_witness :
    ((⟨some "", some "x", some "http://r"⟩ : Env).luci_user = none ∨
      (⟨some "", some "x", some "http://r"⟩ : Env).luci_user = some "" ∨
      (⟨some "", some "x", some "http://r"⟩ : Env).luci_pass = none ∨
      (⟨some "", some "x", some "http://r"⟩ : Env).luci_pass = some "" ∨
      (⟨some "", some "x", some "http://r"⟩ : Env).luci_rpc_root = none ∨
      (⟨some "", some "x", some "http://r"⟩ : Env).luci_rpc_root = some "") ∧
    (load_auth_data ⟨[], []⟩ ⟨some "", some "x", some "http://r"⟩).1 =
      .error (.luci
        "Failed to parse ENV data. Please specify LuCI username, password and host") :=
  ⟨Or.inr (Or.inl rfl),
    (C10_empty_env_like_absent ⟨[], []⟩ ⟨some "", some "x", some "http://r"⟩).1
      (Or.inr (Or.inl rfl))⟩

end LuciLte
